import Mathlib

/-!
Shallow embedding of the support-chat widget
(`src/components/SupportChat.tsx`, first variant — the one with the
network-monitoring effect — and `src/services/api.tsx`).

The React component's state hooks become the fields of `ChatState`;
each handler becomes a pure state transformer.  Asynchronous outcomes
(the HTTP round trip of a submission, a screen-capture attempt, the
settlement of an observed network call) are passed in as explicit
parameters, and the wall-clock timestamp `new Date().toISOString()` is
passed in as a string parameter `now`.
-/

/-- Embeds JavaScript `String.prototype.trim`: drop leading and trailing
whitespace characters. -/
def jsTrim (s : String) : String :=
  String.mk (((s.data.dropWhile Char.isWhitespace).reverse.dropWhile Char.isWhitespace).reverse)

/-- Embeds JavaScript `String.prototype.toLowerCase` (ASCII range). -/
def jsToLower (s : String) : String :=
  String.mk (s.data.map Char.toLower)

/-- Helper for `jsIncludes`: does the second list start the first? -/
def startsWithL : List Char → List Char → Bool
  | _, [] => true
  | [], _ :: _ => false
  | a :: as, b :: bs => a == b && startsWithL as bs

/-- Helper for `jsIncludes`: does `needle` occur at some position of the
haystack list? -/
def includesAux (needle : List Char) : List Char → Bool
  | [] => startsWithL [] needle
  | c :: t => startsWithL (c :: t) needle || includesAux needle t

/-- Embeds JavaScript `String.prototype.includes`: substring containment. -/
def jsIncludes (hay needle : String) : Bool :=
  includesAux needle.data hay.data

/-- `Message.type` in `SupportChat.tsx`: `'user' | 'bot'`. -/
inductive MsgType
  | user
  | bot
deriving DecidableEq, Repr

/-- The `Message` interface of `SupportChat.tsx`. -/
structure Message where
  type : MsgType
  content : String
  timestamp : String
deriving DecidableEq, Repr

/-- The `NetworkRequest` interface of `SupportChat.tsx`: one recorded
network incident.  Header maps are embedded as association lists. -/
structure NetworkRequest where
  url : String
  method : String
  status : Nat
  duration : Nat
  timestamp : String
  error : Option String
  requestHeaders : Option (List (String × String))
  responseHeaders : Option (List (String × String))
deriving DecidableEq, Repr

/-- The three values of the `stage` state hook. -/
inductive Stage
  | greeting
  | screenshot
  | confirm
deriving DecidableEq, Repr

/-- The component state of `SupportChat`: one field per `useState` hook. -/
structure ChatState where
  messages : List Message
  inputText : String
  isCapturing : Bool
  showScreenshotOptions : Bool
  screenshot : Option String
  showPreview : Bool
  stage : Stage
  issueDescription : String
  failedRequests : List NetworkRequest
deriving DecidableEq, Repr

/-- Builds the user-echo message appended at the top of `handleUserInput`. -/
def userMsg (now content : String) : Message :=
  ⟨MsgType.user, content, now⟩

/-- Builds a bot message with the given content. -/
def botMsg (now content : String) : Message :=
  ⟨MsgType.bot, content, now⟩

/-- Bot prompt emitted on leaving the `greeting` stage. -/
def screenshotPromptText : String :=
  "📸 Would you like to add a screenshot? You can capture the current screen or upload an image."

/-- Bot message emitted after a successful screen capture. -/
def capturedText : String :=
  "✅ Screenshot captured! Would you like to submit the ticket now? Type \"yes\" to confirm or \"no\" to try again."

/-- Bot message emitted when screen capture fails. -/
def captureFailedText : String :=
  "❌ Failed to capture screenshot. Would you like to try again?"

/-- Bot warning emitted when an uploaded file exceeds the size limit. -/
def tooLargeText : String :=
  "⚠️ File is too large. Please upload an image smaller than 5MB."

/-- Bot message emitted after a successful file upload. -/
def uploadedText : String :=
  "✅ Screenshot uploaded! Would you like to submit the ticket now? Type \"yes\" to confirm or \"no\" to try again."

/-- Bot re-prompt emitted when the user rejects at the `confirm` stage. -/
def retryPromptText : String :=
  "🔄 Would you like to try capturing the screenshot again?"

/-- Bot message emitted after a successful ticket submission. -/
def ticketSuccessText (ticketId : String) : String :=
  "✅ Thanks! I've created ticket #" ++ ticketId ++ ". Our support team will look into this shortly."

/-- Bot message emitted when ticket submission fails. -/
def submitErrorText : String :=
  "❌ Sorry, there was an error creating your support ticket. Please try again."

/-- Outcome of the HTTP round trip inside `submitTicket`: either the
response was ok and its JSON body carried a `ticketId`, or anything in the
`try` block threw (non-ok status, transport error, JSON parse error). -/
inductive SubmitOutcome
  | success (ticketId : String)
  | failure
deriving DecidableEq, Repr

/-- Embeds `submitTicket` of `SupportChat.tsx` (lines 246–304).
Guard: a falsy (empty) `issueDescription` returns without doing anything.
On success: append the ticket-created bot message, then reset stage,
description, screenshot, screenshot options and the incident list.
On failure (the `catch` block): append one error bot message only. -/
def submitTicket (o : SubmitOutcome) (now : String) (s : ChatState) : ChatState :=
  if s.issueDescription = "" then s
  else
    match o with
    | SubmitOutcome.success ticketId =>
        { s with
          messages := s.messages ++ [botMsg now (ticketSuccessText ticketId)],
          stage := Stage.greeting,
          issueDescription := "",
          screenshot := none,
          showScreenshotOptions := false,
          failedRequests := [] }
    | SubmitOutcome.failure =>
        { s with messages := s.messages ++ [botMsg now submitErrorText] }

/-- Embeds `handleUserInput` of `SupportChat.tsx` (lines 202–244).
Returns the next state together with the number of `submitTicket` calls
made.  The guard returns immediately when the trimmed input is empty;
otherwise the input is echoed as a user message and interpreted by stage. -/
def handleUserInput (o : SubmitOutcome) (now : String) (s : ChatState) : ChatState × Nat :=
  if jsTrim s.inputText = "" then (s, 0)
  else
    let input := s.inputText
    let s1 := { s with messages := s.messages ++ [userMsg now input] }
    match s.stage with
    | Stage.greeting =>
        ({ s1 with
           issueDescription := input,
           messages := s1.messages ++ [botMsg now screenshotPromptText],
           stage := Stage.screenshot,
           showScreenshotOptions := true,
           inputText := "" }, 0)
    | Stage.screenshot =>
        ({ s1 with inputText := "" }, 0)
    | Stage.confirm =>
        if jsIncludes (jsToLower input) "yes" then
          ({ submitTicket o now s1 with inputText := "" }, 1)
        else
          ({ s1 with
             messages := s1.messages ++ [botMsg now retryPromptText],
             stage := Stage.screenshot,
             showScreenshotOptions := true,
             inputText := "" }, 0)

/-- A user-selected file as `handleFileUpload` sees it: its byte size and
the data URI the `FileReader` would produce from it. -/
structure UploadedFile where
  size : Nat
  dataUri : String
deriving DecidableEq, Repr

/-- Embeds `handleFileUpload` of `SupportChat.tsx` (lines 174–200).
Returns the next state and whether the file was read (`readAsDataURL`).
A missing file does nothing; a file over `5 * 1024 * 1024` bytes appends a
warning and returns before the reader is created; otherwise the read
completes, the data URI becomes the screenshot, a bot confirmation is
appended and the stage advances to `confirm`. -/
def handleFileUpload (now : String) (file : Option UploadedFile) (s : ChatState) :
    ChatState × Bool :=
  match file with
  | none => (s, false)
  | some f =>
      if 5 * 1024 * 1024 < f.size then
        ({ s with messages := s.messages ++ [botMsg now tooLargeText] }, false)
      else
        ({ s with
           screenshot := some f.dataUri,
           messages := s.messages ++ [botMsg now uploadedText],
           stage := Stage.confirm,
           showScreenshotOptions := false }, true)

/-- Outcome of a screen-capture attempt in `captureScreen`: either the
platform produced a frame encoded as a data URI, or some step threw. -/
inductive CaptureOutcome
  | captured (dataUri : String)
  | failed
deriving DecidableEq, Repr

/-- Embeds `captureScreen` of `SupportChat.tsx` (lines 130–172).
On success the data URI becomes the screenshot, a confirmation is
appended, the stage advances to `confirm` and the capture affordance is
withdrawn; on failure only a retry-inviting bot message is appended.
`isCapturing` ends `false` either way (the `finally` block). -/
def captureScreen (now : String) (o : CaptureOutcome) (s : ChatState) : ChatState :=
  match o with
  | CaptureOutcome.captured dataUri =>
      { s with
        screenshot := some dataUri,
        messages := s.messages ++ [botMsg now capturedText],
        stage := Stage.confirm,
        showScreenshotOptions := false,
        isCapturing := false }
  | CaptureOutcome.failed =>
      { s with
        messages := s.messages ++ [botMsg now captureFailedText],
        isCapturing := false }

/-- The fixed ticket-submission endpoint `submitTicket` POSTs to. -/
def submitEndpoint : String :=
  "http://localhost:18000/api/support-ticket"

/-- A settled HTTP response as the fetch wrapper inspects it: status and
response headers. -/
structure FetchResponse where
  status : Nat
  headers : List (String × String)
deriving DecidableEq, Repr

/-- Embeds the `window.fetch` wrapper installed by the network-monitoring
effect of `SupportChat.tsx` (lines 90–122).  `result` is what the
original `window.fetch` produced for this call (a response, or a thrown
error's message); `dur` is the measured duration and `prev` the incident
list so far.  Returns the new incident list and the call's outcome as the
wrapper's caller sees it: a status `≥ 400` records an incident and still
returns the response; a thrown error records a status-0 incident and is
rethrown unchanged. -/
def wrappedFetch (url method : String) (reqHeaders : Option (List (String × String)))
    (dur : Nat) (now : String) (result : Except String FetchResponse)
    (prev : List NetworkRequest) : List NetworkRequest × Except String FetchResponse :=
  match result with
  | Except.ok resp =>
      if 400 ≤ resp.status then
        (prev ++ [⟨url, method, resp.status, dur, now, none, reqHeaders, some resp.headers⟩],
         Except.ok resp)
      else
        (prev, Except.ok resp)
  | Except.error e =>
      (prev ++ [⟨url, method, 0, dur, now, some e, reqHeaders, none⟩], Except.error e)

deriving instance DecidableEq for Except

/-- Outcome of the probe `fetch(entry.name, { method: 'POST' })` issued by
the `PerformanceObserver` callback: the probe's response type, status and
headers, or a thrown error's message. -/
inductive ProbeResult
  | ok (respType : String) (status : Nat) (headers : List (String × String))
  | err (msg : String)
deriving DecidableEq, Repr

/-- One completion seen by the network-monitoring effect: either a
resource-timing entry (which the observer re-probes), or a call through
the wrapped `window.fetch`. -/
inductive NetEvent
  | resourceEntry (name : String) (duration : Nat) (now : String) (probe : ProbeResult)
  | fetchCall (url method : String) (reqHeaders : Option (List (String × String)))
      (duration : Nat) (now : String) (result : Except String FetchResponse)
deriving DecidableEq, Repr

/-- Embeds how one completion updates the `failedRequests` list
(`SupportChat.tsx` lines 56–122).  A resource entry whose probe answers
with status `≥ 400` appends an incident carrying the probe's response
type and headers; a probe that throws appends a status-0 incident with
method `"Unknown"`; a wrapped fetch call updates the list exactly as
`wrappedFetch` does. -/
def observeEvent (e : NetEvent) (prev : List NetworkRequest) : List NetworkRequest :=
  match e with
  | NetEvent.resourceEntry name dur now (ProbeResult.ok respType st hdrs) =>
      if 400 ≤ st then
        prev ++ [⟨name, respType, st, dur, now, none, some hdrs, none⟩]
      else prev
  | NetEvent.resourceEntry name dur now (ProbeResult.err m) =>
      prev ++ [⟨name, "Unknown", 0, dur, now, some m, none, none⟩]
  | NetEvent.fetchCall url method reqHeaders dur now result =>
      (wrappedFetch url method reqHeaders dur now result prev).1

/-- The incident list accumulated by one monitoring session, starting
from the empty list the effect installs, over a sequence of observed
completions. -/
def observeSession (es : List NetEvent) : List NetworkRequest :=
  es.foldl (fun acc e => observeEvent e acc) []

/-- The incident a single completion would append, if any: status `≥ 400`
or a thrown error records one incident, anything else records none. -/
def eventIncident (e : NetEvent) : Option NetworkRequest :=
  match e with
  | NetEvent.resourceEntry name dur now (ProbeResult.ok respType st hdrs) =>
      if 400 ≤ st then some ⟨name, respType, st, dur, now, none, some hdrs, none⟩ else none
  | NetEvent.resourceEntry name dur now (ProbeResult.err m) =>
      some ⟨name, "Unknown", 0, dur, now, some m, none, none⟩
  | NetEvent.fetchCall url method reqHeaders dur now (Except.ok resp) =>
      if 400 ≤ resp.status then
        some ⟨url, method, resp.status, dur, now, none, reqHeaders, some resp.headers⟩
      else none
  | NetEvent.fetchCall url method reqHeaders dur now (Except.error e) =>
      some ⟨url, method, 0, dur, now, some e, reqHeaders, none⟩

/-!  Embedding of `src/services/api.tsx`. -/

/-- A parsed JSON response body as the axios layer hands it over:
its optional `message` field (read by the error interceptor) and the rest
of the payload, kept abstract as a string. -/
structure ApiData where
  message : Option String
  payload : String
deriving DecidableEq, Repr

/-- An HTTP response as axios delivers it: status plus parsed body. -/
structure ApiResponse where
  status : Nat
  data : ApiData
deriving DecidableEq, Repr

/-- The `APIError` class of `api.tsx`: message, status, optional body. -/
structure APIError where
  message : String
  status : Nat
  data : Option ApiData
deriving DecidableEq, Repr

/-- How one axios request settles before interceptors run: an HTTP
response arrived (any status), or no response (transport error). -/
inductive AxiosOutcome
  | response (r : ApiResponse)
  | networkError (msg : String)
deriving DecidableEq, Repr

/-- Axios's default `validateStatus`: `200 <= status < 300`. -/
def is2xx (st : Nat) : Bool :=
  200 ≤ st && st < 300

/-- Embeds the response interceptor of `api.tsx` (lines 81–93): a 2xx
response passes through; a non-2xx response becomes an `APIError` with
the server's `message` field (falling back to `"Server error"`), the
response status and the body; a transport error becomes an `APIError`
with its message and status 0. -/
def responseInterceptor (o : AxiosOutcome) : Except APIError ApiResponse :=
  match o with
  | AxiosOutcome.response r =>
      if is2xx r.status then Except.ok r
      else Except.error ⟨r.data.message.getD "Server error", r.status, some r.data⟩
  | AxiosOutcome.networkError m =>
      Except.error ⟨m, 0, none⟩

/-- The six operations of the `supportApi` object in `api.tsx`. -/
inductive SupportOp
  | createTicket
  | getTicketStatus
  | updateTicket
  | uploadScreenshot
  | getNetworkStats
  | healthCheck
deriving DecidableEq, Repr

/-- The route each `supportApi` operation addresses (`api.tsx` lines
127–212), given the ticket id used by the per-ticket routes. -/
def opRoute (ticketId : String) : SupportOp → String
  | SupportOp.createTicket => "/api/support-ticket"
  | SupportOp.getTicketStatus => "/api/support-ticket/" ++ ticketId
  | SupportOp.updateTicket => "/api/support-ticket/" ++ ticketId
  | SupportOp.uploadScreenshot => "/api/support-ticket/" ++ ticketId ++ "/screenshot"
  | SupportOp.getNetworkStats => "/api/network-stats"
  | SupportOp.healthCheck => "/api/health"

/-- Embeds running one `supportApi` operation (`api.tsx` lines 127–212)
on a settled axios outcome.  Every operation's `catch` rethrows an
`APIError` unchanged (the interceptor produces nothing else), and on
success every operation returns `response.data` — except
`uploadScreenshot`, whose body discards the response and resolves with no
value (`Promise<void>`). -/
def runOp (op : SupportOp) (o : AxiosOutcome) : Except APIError (Option ApiData) :=
  match responseInterceptor o with
  | Except.error e => Except.error e
  | Except.ok r =>
      match op with
      | SupportOp.uploadScreenshot => Except.ok none
      | _ => Except.ok (some r.data)

/-- One interaction with the widget, with every asynchronous outcome it
depends on supplied as data.  `setInput` is typing in the input box,
`discardScreenshot` the preview's trash button, `dismissIncidents` the
incident panel's close button, the preview toggles the modal. -/
inductive ChatAction
  | input (o : SubmitOutcome) (now : String)
  | capture (now : String) (o : CaptureOutcome)
  | upload (now : String) (file : Option UploadedFile)
  | submit (o : SubmitOutcome) (now : String)
  | observe (e : NetEvent)
  | setInput (text : String)
  | discardScreenshot
  | dismissIncidents
  | openPreview
  | closePreview
deriving Repr

/-- Applies one interaction to the widget state. -/
def applyAction : ChatAction → ChatState → ChatState
  | ChatAction.input o now, s => (handleUserInput o now s).1
  | ChatAction.capture now o, s => captureScreen now o s
  | ChatAction.upload now f, s => (handleFileUpload now f s).1
  | ChatAction.submit o now, s => submitTicket o now s
  | ChatAction.observe e, s => { s with failedRequests := observeEvent e s.failedRequests }
  | ChatAction.setInput t, s => { s with inputText := t }
  | ChatAction.discardScreenshot, s => { s with screenshot := none, showScreenshotOptions := true }
  | ChatAction.dismissIncidents, s => { s with failedRequests := [] }
  | ChatAction.openPreview, s => { s with showPreview := true }
  | ChatAction.closePreview, s => { s with showPreview := false }

/-!  Helper lemmas shared by the theorems below. -/

theorem submitTicket_messages (o : SubmitOutcome) (now : String) (s : ChatState) :
    ∃ t, (submitTicket o now s).messages = s.messages ++ t := by
  unfold submitTicket
  split
  · exact ⟨[], by simp⟩
  · cases o with
    | success tid => exact ⟨[botMsg now (ticketSuccessText tid)], rfl⟩
    | failure => exact ⟨[botMsg now submitErrorText], rfl⟩

theorem handleUserInput_messages (o : SubmitOutcome) (now : String) (s : ChatState) :
    ∃ t, (handleUserInput o now s).1.messages = s.messages ++ t := by
  by_cases h : jsTrim s.inputText = ""
  · exact ⟨[], by simp [handleUserInput, h]⟩
  · cases hst : s.stage with
    | greeting =>
        exact ⟨[userMsg now s.inputText, botMsg now screenshotPromptText],
          by simp [handleUserInput, h, hst]⟩
    | screenshot =>
        exact ⟨[userMsg now s.inputText], by simp [handleUserInput, h, hst]⟩
    | confirm =>
        by_cases hy : jsIncludes (jsToLower s.inputText) "yes"
        · obtain ⟨t, ht⟩ :=
            submitTicket_messages o now
              { s with messages := s.messages ++ [userMsg now s.inputText],
                       stage := Stage.confirm }
          refine ⟨[userMsg now s.inputText] ++ t, ?_⟩
          simp [handleUserInput, h, hst, hy, ht]
        · exact ⟨[userMsg now s.inputText, botMsg now retryPromptText],
            by simp [handleUserInput, h, hst, hy]⟩

theorem observeEvent_toList (e : NetEvent) (prev : List NetworkRequest) :
    observeEvent e prev = prev ++ (eventIncident e).toList := by
  cases e with
  | resourceEntry name dur now probe =>
      cases probe <;> simp only [observeEvent, eventIncident] <;>
        first
        | (split <;> simp)
        | simp
  | fetchCall url method reqHeaders dur now result =>
      cases result <;> simp only [observeEvent, eventIncident, wrappedFetch] <;>
        first
        | (split <;> simp)
        | simp

theorem observeSession_append (es : List NetEvent) :
    ∀ acc, es.foldl (fun a e => observeEvent e a) acc = acc ++ es.filterMap eventIncident := by
  induction es with
  | nil => intro acc; simp
  | cons e t ih =>
      intro acc
      rw [List.foldl_cons, ih (observeEvent e acc), observeEvent_toList, List.filterMap_cons]
      cases eventIncident e <;> simp

/-!  Concrete states and inputs used by witnesses and counterexamples. -/

/-- A mid-conversation state sitting at the `confirm` stage with a staged
description, screenshot and one recorded incident. -/
def c1ex : ChatState :=
  ⟨[], "", false, false, some "data:image/png;base64,AAAA", false, Stage.confirm,
    "it is broken", [⟨"http://localhost:3000/api/data", "GET", 500, 12, "t0", none, none, none⟩]⟩

/-- A completion of the ticket-submission endpoint itself settling with
HTTP 500, as the wrapped `window.fetch` would observe it. -/
def dupEvent : NetEvent :=
  NetEvent.fetchCall submitEndpoint "POST" none 3 "t0" (Except.ok ⟨500, []⟩)

/-- A `confirm`-stage state whose pending input is `"Yes"`. -/
def w3yes : ChatState :=
  ⟨[], "Yes", false, false, some "d", false, Stage.confirm, "broken", []⟩

/-- A `confirm`-stage state whose pending input is `"no thanks"`. -/
def w3no : ChatState :=
  ⟨[], "no thanks", false, false, some "d", false, Stage.confirm, "broken", []⟩

/-- A fresh `greeting`-stage state with a pending issue description. -/
def w4 : ChatState :=
  ⟨[], "My upload is broken", false, false, none, false, Stage.greeting, "", []⟩

/-- A `screenshot`-stage state awaiting an attachment. -/
def w5 : ChatState :=
  ⟨[], "", false, true, none, false, Stage.screenshot, "broken", []⟩

/-- A file one byte over the 5 MiB limit. -/
def bigFile : UploadedFile :=
  ⟨5 * 1024 * 1024 + 1, "data:image/png;base64,BBBB"⟩

/-- A state whose pending input is whitespace only. -/
def w6 : ChatState :=
  ⟨[], "   ", false, false, none, false, Stage.greeting, "", []⟩

/-- A state with an empty issue description. -/
def w7 : ChatState :=
  ⟨[], "", false, false, some "d", false, Stage.confirm, "",
    [⟨"http://localhost:3000/api/data", "GET", 404, 5, "t0", none, none, none⟩]⟩

/-- A non-2xx API response whose body carries a server message. -/
def r500 : ApiResponse := ⟨500, ⟨some "boom", "body"⟩⟩

/-- A 2xx API response. -/
def r200 : ApiResponse := ⟨200, ⟨some "created", "body2"⟩⟩

/-!  Claims. -/

/-- Claim C1 (as stated, refuted): after a FAILED submission attempt the
conversation state is NOT reset — at the concrete state `c1ex` the stage
stays `confirm`, the description, attachment and incident list all
survive, so the claim's "in both outcomes the state is reset and the
incident list is empty" is false on the code. -/
theorem C1_submit_failure_counterexample :
    ¬ ((submitTicket SubmitOutcome.failure "t1" c1ex).stage = Stage.greeting ∧
       (submitTicket SubmitOutcome.failure "t1" c1ex).issueDescription = "" ∧
       (submitTicket SubmitOutcome.failure "t1" c1ex).screenshot = none ∧
       (submitTicket SubmitOutcome.failure "t1" c1ex).failedRequests = []) := by
  decide

/-- Claim C1 (amended): for a submission attempt with a non-empty
description, a SUCCESSFUL submission appends one success bot message and
resets the conversation (stage `greeting`, description cleared,
attachment cleared, capture affordance withdrawn, incident list emptied);
a FAILED submission appends exactly one error bot message and leaves the
stage, description, attachment and incident list unchanged. -/
theorem C1_submit_reset (now tid : String) (s : ChatState) (h : s.issueDescription ≠ "") :
    submitTicket (SubmitOutcome.success tid) now s =
      { s with
        messages := s.messages ++ [botMsg now (ticketSuccessText tid)],
        stage := Stage.greeting,
        issueDescription := "",
        screenshot := none,
        showScreenshotOptions := false,
        failedRequests := [] } ∧
    submitTicket SubmitOutcome.failure now s =
      { s with messages := s.messages ++ [botMsg now submitErrorText] } := by
  constructor <;> simp [submitTicket, h]

/-- Witness for `C1_submit_reset` at the concrete state `c1ex`. -/
theorem C1_submit_reset_witness :
    c1ex.issueDescription ≠ "" ∧
    (submitTicket (SubmitOutcome.success "T-100") "t1" c1ex =
      { c1ex with
        messages := c1ex.messages ++ [botMsg "t1" (ticketSuccessText "T-100")],
        stage := Stage.greeting,
        issueDescription := "",
        screenshot := none,
        showScreenshotOptions := false,
        failedRequests := [] } ∧
    submitTicket SubmitOutcome.failure "t1" c1ex =
      { c1ex with messages := c1ex.messages ++ [botMsg "t1" submitErrorText] }) :=
  ⟨by decide, C1_submit_reset "t1" "T-100" c1ex (by decide)⟩

/-- Claim C2 (as stated, refuted): the session that observes the same
failing completion of the ticket-submission endpoint twice records two
incidents with the same url — and that url is the submission endpoint —
so neither the no-duplicate guarantee nor the self-exclusion guarantee
holds on the code. -/
theorem C2_observer_counterexample :
    ¬ ((((observeSession [dupEvent, dupEvent]).map NetworkRequest.url).Nodup) ∧
       ∀ r ∈ observeSession [dupEvent, dupEvent], r.url ≠ submitEndpoint) := by
  decide

/-- Claim C2 (amended): the incident list of a monitoring session is
exactly one incident per observed failing completion (status `≥ 400` or
transport error), in observation order — with no de-duplication by url
and no exclusion of the ticket-submission endpoint. -/
theorem C2_observer_characterization (es : List NetEvent) :
    observeSession es = es.filterMap eventIncident := by
  simpa [observeSession] using observeSession_append es []

/-- Claim C3: at the `confirm` stage, a (non-blank) input whose lowercase
form contains `"yes"` makes exactly one `submitTicket` call; any other
input makes none, moves the stage back to `screenshot` and appends the
re-prompt bot message after the user echo. -/
theorem C3_confirm_stage (o : SubmitOutcome) (now : String) (s : ChatState)
    (hst : s.stage = Stage.confirm) (hne : jsTrim s.inputText ≠ "") :
    (jsIncludes (jsToLower s.inputText) "yes" = true → (handleUserInput o now s).2 = 1) ∧
    (jsIncludes (jsToLower s.inputText) "yes" = false →
      (handleUserInput o now s).2 = 0 ∧
      (handleUserInput o now s).1.stage = Stage.screenshot ∧
      (handleUserInput o now s).1.messages =
        s.messages ++ [userMsg now s.inputText, botMsg now retryPromptText]) := by
  constructor
  · intro hy; simp [handleUserInput, hne, hst, hy]
  · intro hy; simp [handleUserInput, hne, hst, hy]

/-- Witness for `C3_confirm_stage` at the inputs `"Yes"` and `"no thanks"`. -/
theorem C3_confirm_stage_witness :
    w3yes.stage = Stage.confirm ∧ jsTrim w3yes.inputText ≠ "" ∧
    jsIncludes (jsToLower w3yes.inputText) "yes" = true ∧
    (handleUserInput (SubmitOutcome.success "T-1") "t" w3yes).2 = 1 ∧
    w3no.stage = Stage.confirm ∧ jsTrim w3no.inputText ≠ "" ∧
    jsIncludes (jsToLower w3no.inputText) "yes" = false ∧
    ((handleUserInput (SubmitOutcome.success "T-1") "t" w3no).2 = 0 ∧
     (handleUserInput (SubmitOutcome.success "T-1") "t" w3no).1.stage = Stage.screenshot ∧
     (handleUserInput (SubmitOutcome.success "T-1") "t" w3no).1.messages =
       w3no.messages ++ [userMsg "t" w3no.inputText, botMsg "t" retryPromptText]) :=
  ⟨rfl, by decide, by decide,
   (C3_confirm_stage (SubmitOutcome.success "T-1") "t" w3yes rfl (by decide)).1 (by decide),
   rfl, by decide, by decide,
   (C3_confirm_stage (SubmitOutcome.success "T-1") "t" w3no rfl (by decide)).2 (by decide)⟩

/-- Claim C4: at the `greeting` stage, any input that is non-empty after
trimming becomes the stored issue description, the stage moves to
`screenshot`, and the capture-or-upload bot prompt is appended right
after the user echo. -/
theorem C4_greeting_stage (o : SubmitOutcome) (now : String) (s : ChatState)
    (hst : s.stage = Stage.greeting) (hne : jsTrim s.inputText ≠ "") :
    (handleUserInput o now s).1.issueDescription = s.inputText ∧
    (handleUserInput o now s).1.stage = Stage.screenshot ∧
    (handleUserInput o now s).1.messages =
      s.messages ++ [userMsg now s.inputText, botMsg now screenshotPromptText] := by
  simp [handleUserInput, hne, hst]

/-- Witness for `C4_greeting_stage` at the input `"My upload is broken"`. -/
theorem C4_greeting_stage_witness :
    w4.stage = Stage.greeting ∧ jsTrim w4.inputText ≠ "" ∧
    ((handleUserInput SubmitOutcome.failure "t" w4).1.issueDescription = w4.inputText ∧
     (handleUserInput SubmitOutcome.failure "t" w4).1.stage = Stage.screenshot ∧
     (handleUserInput SubmitOutcome.failure "t" w4).1.messages =
       w4.messages ++ [userMsg "t" w4.inputText, botMsg "t" screenshotPromptText]) :=
  ⟨rfl, by decide, C4_greeting_stage SubmitOutcome.failure "t" w4 rfl (by decide)⟩

/-- Claim C5: a selected file larger than `5 * 1024 * 1024` bytes makes
the upload handler append exactly one warning bot message and nothing
else: the file is not read, and the stage, attachment and description
(indeed every other state field) are unchanged. -/
theorem C5_file_too_large (now : String) (f : UploadedFile) (s : ChatState)
    (h : 5 * 1024 * 1024 < f.size) :
    handleFileUpload now (some f) s =
      ({ s with messages := s.messages ++ [botMsg now tooLargeText] }, false) := by
  simp [handleFileUpload, h]

/-- Witness for `C5_file_too_large` at a file one byte over the limit. -/
theorem C5_file_too_large_witness :
    5 * 1024 * 1024 < bigFile.size ∧
    handleFileUpload "t" (some bigFile) w5 =
      ({ w5 with messages := w5.messages ++ [botMsg "t" tooLargeText] }, false) :=
  ⟨by decide, C5_file_too_large "t" bigFile w5 (by decide)⟩

/-- Claim C6: an input that is empty (or whitespace only) after trimming
is a no-op at every stage: the handler returns the state unchanged and
makes no submission call. -/
theorem C6_blank_input_noop (o : SubmitOutcome) (now : String) (s : ChatState)
    (h : jsTrim s.inputText = "") :
    handleUserInput o now s = (s, 0) := by
  simp [handleUserInput, h]

/-- Witness for `C6_blank_input_noop` at the whitespace input `"   "`. -/
theorem C6_blank_input_noop_witness :
    jsTrim w6.inputText = "" ∧
    handleUserInput SubmitOutcome.failure "t" w6 = (w6, 0) :=
  ⟨by decide, C6_blank_input_noop SubmitOutcome.failure "t" w6 (by decide)⟩

/-- Claim C7: with an empty stored issue description, `submitTicket` is a
no-op for every submission outcome: the state — messages, stage,
attachment, incident list — is returned unchanged. -/
theorem C7_empty_description_noop (o : SubmitOutcome) (now : String) (s : ChatState)
    (h : s.issueDescription = "") :
    submitTicket o now s = s := by
  simp [submitTicket, h]

/-- Witness for `C7_empty_description_noop` at the state `w7`. -/
theorem C7_empty_description_noop_witness :
    w7.issueDescription = "" ∧
    submitTicket SubmitOutcome.failure "t" w7 = w7 :=
  ⟨rfl, C7_empty_description_noop SubmitOutcome.failure "t" w7 rfl⟩

/-- Claim C8 (as stated, refuted): `uploadScreenshot` does not return the
parsed response body on success — its embedding resolves with no value
even though the 2xx response `r200` carries a body. -/
theorem C8_upload_void_counterexample :
    runOp SupportOp.uploadScreenshot (AxiosOutcome.response r200) ≠
      Except.ok (some r200.data) := by
  decide

/-- Claim C8 (amended): every `supportApi` operation surfaces a non-2xx
response as an `APIError` carrying the response status and the
server-supplied message (falling back to `"Server error"`), surfaces a
transport error as an `APIError` with status 0, and on a 2xx response
returns the parsed body — except `uploadScreenshot`, which resolves with
no value. -/
theorem C8_api_error_contract (op : SupportOp) (r : ApiResponse) (m : String) :
    (is2xx r.status = false →
      runOp op (AxiosOutcome.response r) =
        Except.error ⟨r.data.message.getD "Server error", r.status, some r.data⟩) ∧
    runOp op (AxiosOutcome.networkError m) = Except.error ⟨m, 0, none⟩ ∧
    (is2xx r.status = true → op ≠ SupportOp.uploadScreenshot →
      runOp op (AxiosOutcome.response r) = Except.ok (some r.data)) ∧
    (is2xx r.status = true →
      runOp SupportOp.uploadScreenshot (AxiosOutcome.response r) = Except.ok none) := by
  refine ⟨?_, rfl, ?_, ?_⟩
  · intro h
    cases op <;> simp [runOp, responseInterceptor, h]
  · intro h hop
    cases op <;> first
      | exact absurd rfl hop
      | simp [runOp, responseInterceptor, h]
  · intro h
    simp [runOp, responseInterceptor, h]

/-- Witness for `C8_api_error_contract` at `createTicket` and
`uploadScreenshot` with the concrete responses `r500` and `r200`. -/
theorem C8_api_error_contract_witness :
    is2xx r500.status = false ∧
    runOp SupportOp.createTicket (AxiosOutcome.response r500) =
      Except.error ⟨r500.data.message.getD "Server error", r500.status, some r500.data⟩ ∧
    is2xx r200.status = true ∧
    SupportOp.createTicket ≠ SupportOp.uploadScreenshot ∧
    runOp SupportOp.createTicket (AxiosOutcome.response r200) = Except.ok (some r200.data) ∧
    runOp SupportOp.uploadScreenshot (AxiosOutcome.response r200) = Except.ok none :=
  ⟨by decide,
   (C8_api_error_contract SupportOp.createTicket r500 "m").1 (by decide),
   by decide,
   by decide,
   (C8_api_error_contract SupportOp.createTicket r200 "m").2.2.1 (by decide) (by decide),
   (C8_api_error_contract SupportOp.uploadScreenshot r200 "m").2.2.2 (by decide)⟩

/-- Claim C9: the message list is append-only — every widget interaction
(input handling, capture, upload, submission, observer callbacks and the
pure UI toggles) yields a message list of the form
`old messages ++ suffix`, so no existing message is modified or removed. -/
theorem C9_messages_append_only (a : ChatAction) (s : ChatState) :
    ∃ t, (applyAction a s).messages = s.messages ++ t := by
  cases a with
  | input o now => exact handleUserInput_messages o now s
  | capture now o =>
      cases o with
      | captured dataUri =>
          exact ⟨[botMsg now capturedText], by simp [applyAction, captureScreen]⟩
      | failed =>
          exact ⟨[botMsg now captureFailedText], by simp [applyAction, captureScreen]⟩
  | upload now f =>
      cases f with
      | none => exact ⟨[], by simp [applyAction, handleFileUpload]⟩
      | some f =>
          by_cases hsz : 5 * 1024 * 1024 < f.size
          · exact ⟨[botMsg now tooLargeText], by simp [applyAction, handleFileUpload, hsz]⟩
          · exact ⟨[botMsg now uploadedText], by simp [applyAction, handleFileUpload, hsz]⟩
  | submit o now => exact submitTicket_messages o now s
  | observe e => exact ⟨[], by simp [applyAction]⟩
  | setInput t => exact ⟨[], by simp [applyAction]⟩
  | discardScreenshot => exact ⟨[], by simp [applyAction]⟩
  | dismissIncidents => exact ⟨[], by simp [applyAction]⟩
  | openPreview => exact ⟨[], by simp [applyAction]⟩
  | closePreview => exact ⟨[], by simp [applyAction]⟩

/-- Claim C10: the installed `window.fetch` wrapper is observationally
transparent — whatever the original fetch produced (a response of any
status, or a thrown error) is exactly what the wrapper's caller gets
back; recording an incident never alters the call's outcome. -/
theorem C10_wrapped_fetch_transparent (url method : String)
    (reqHeaders : Option (List (String × String))) (dur : Nat) (now : String)
    (result : Except String FetchResponse) (prev : List NetworkRequest) :
    (wrappedFetch url method reqHeaders dur now result prev).2 = result := by
  cases result with
  | ok resp => simp only [wrappedFetch]; split <;> rfl
  | error e => rfl
